import Mathlib

/-!
Shallow embedding of the OpenButter gateway connectors:
the Node connector `src/services/butter-connector.cjs` (namespace `Cjs`)
and the browser connector `src/services/butter-connector-browser.js`
(namespace `Browser`).  State fields mirror the instance fields of the
JavaScript classes; timer handles are modelled as pendingness flags
(`setTimeout` sets the flag, `clearTimeout` clears it, a timer-fire event
is enabled only while the flag is set).  Observable effects (socket
creation, frames written to the wire, events emitted to listeners,
response callbacks run, timer callbacks running) are recorded as `Action`
values in the order the code performs them.
-/

namespace Butter

/-- WebSocket readyState values. -/
inductive ReadyState where
  | CONNECTING
  | OPEN
  | CLOSING
  | CLOSED
deriving DecidableEq, Repr

/-- Observable effects of a connector step, in program order. -/
inductive Action where
  | timerFired (timerName : String)
  | wsCreated
  | wsSentRpc (reqId : Option Nat) (method : String) (params : Nat)
  | wsSentRaw (tag : String)
  | wsPingSent
  | wsCloseCalled
  | wsTerminated
  | emitted (eventName : String)
  | callbackRun (cb : Nat) (payload : Nat)
deriving DecidableEq, Repr

/-- True exactly on `Action.timerFired` actions. -/
def Action.isTimerFire : Action → Bool
  | .timerFired _ => true
  | _ => false

/-- True exactly on `Action.callbackRun` actions. -/
def Action.isCallbackRun : Action → Bool
  | .callbackRun _ _ => true
  | _ => false

namespace Cjs

/-- Configuration options of the Node connector (`defaultOptions`, lines 51-58). -/
structure Options where
  reconnectInterval : Nat
  maxReconnectInterval : Nat
  reconnectDecay : Nat
  heartbeatInterval : Nat
  connectionTimeout : Nat
deriving DecidableEq, Repr

/-- `ButterConnector.defaultOptions` (butter-connector.cjs lines 51-58). -/
def defaultOptions : Options :=
  { reconnectInterval := 1000
    maxReconnectInterval := 30000
    reconnectDecay := 2
    heartbeatInterval := 30000
    connectionTimeout := 10000 }

/-- One entry of `this.messageQueue`: `{ method, params, callback }`.
`params` is an opaque token; `callback` is an opaque callback identity. -/
structure QueueEntry where
  method : String
  params : Nat
  callback : Option Nat
deriving DecidableEq, Repr

/-- Instance state of the Node `ButterConnector` (constructor, lines 64-102).
`wsPresent` models `this.ws !== null`; `wsReady` the readyState of that
socket; the three timer fields model pendingness of the respective handles. -/
structure State where
  options : Options
  wsPresent : Bool
  wsReady : ReadyState
  connected : Bool
  shouldReconnect : Bool
  reconnectAttempts : Nat
  reconnectTimer : Bool
  heartbeatTimer : Bool
  connectionTimer : Bool
  messageQueue : List QueueEntry
  messageId : Nat
  pendingRequests : List (Nat × Nat)
  currentReconnectInterval : Nat
deriving DecidableEq, Repr

/-- Constructor state (lines 64-102): no socket, not connected,
`_shouldReconnect = true`, empty queue and pending map, `messageId = 0`. -/
def init (o : Options) : State :=
  { options := o
    wsPresent := false
    wsReady := ReadyState.CLOSED
    connected := false
    shouldReconnect := true
    reconnectAttempts := 0
    reconnectTimer := false
    heartbeatTimer := false
    connectionTimer := false
    messageQueue := []
    messageId := 0
    pendingRequests := []
    currentReconnectInterval := o.reconnectInterval }

/-- `Map.get` on the insertion-ordered model of `this.pendingRequests`. -/
def mapGet (m : List (Nat × Nat)) (k : Nat) : Option Nat :=
  match m with
  | [] => none
  | p :: rest => if p.1 = k then some p.2 else mapGet rest k

/-- `Map.delete` on the model of `this.pendingRequests`. -/
def mapDelete (m : List (Nat × Nat)) (k : Nat) : List (Nat × Nat) :=
  m.filter (fun p => p.1 ≠ k)

/-- `Map.set` on the model of `this.pendingRequests`. -/
def mapSet (m : List (Nat × Nat)) (k v : Nat) : List (Nat × Nat) :=
  if (mapGet m k).isSome then
    m.map (fun p => if p.1 = k then (k, v) else p)
  else m ++ [(k, v)]

/-- An inbound JSON-RPC message: optional correlation `id` plus an opaque
payload token standing for the rest of the parsed object. -/
structure Msg where
  rpcId : Option Nat
  payload : Nat
deriving DecidableEq, Repr

/-- `_stopHeartbeat()` (lines 280-285): clear the heartbeat interval. -/
def stopHeartbeat (s : State) : State :=
  { s with heartbeatTimer := false }

/-- `_startHeartbeat()` (lines 263-273): clear any old interval, set a new one. -/
def startHeartbeat (s : State) : State :=
  { s with heartbeatTimer := true }

/-- `_sendInternal(method, params, callback)` (lines 307-325): if the socket
is open, allocate the next id via `createRequest`/`generateId`, register the
callback (when given) under that id, and write the request to the wire. -/
def sendInternal (s : State) (method : String) (params : Nat)
    (callback : Option Nat) : State × List Action × Bool :=
  if s.wsPresent = true ∧ s.wsReady = ReadyState.OPEN then
    let reqId := s.messageId + 1
    let s1 := { s with messageId := reqId }
    let s2 := match callback with
      | some cb => { s1 with pendingRequests := mapSet s1.pendingRequests reqId cb }
      | none => s1
    (s2, [Action.wsSentRpc (some reqId) method params], true)
  else
    (s, [], false)

/-- The loop body of `_flushQueue()` (lines 292-297): while the queue is
nonempty and `_connected`, shift the head entry and `_sendInternal` it
(the boolean result is not checked). -/
def flushGo : List QueueEntry → State → State × List Action
  | [], s => (s, [])
  | e :: rest, s =>
    if s.connected = true then
      let r := sendInternal s e.method e.params e.callback
      let r2 := flushGo rest r.1
      (r2.1, r.2.1 ++ r2.2)
    else
      ({ s with messageQueue := e :: rest }, [])

/-- `_flushQueue()` (lines 292-297). -/
def flushQueue (s : State) : State × List Action :=
  flushGo s.messageQueue { s with messageQueue := [] }

/-- `_handleOpen()` (lines 140-157): mark connected, reset the reconnect
counters, clear the connection timer, flush the queue, start the heartbeat,
emit `connected`. -/
def handleOpen (s : State) : State × List Action :=
  let s1 := { s with
    connected := true
    reconnectAttempts := 0
    currentReconnectInterval := s.options.reconnectInterval
    connectionTimer := false }
  let r := flushQueue s1
  (startHeartbeat r.1, r.2 ++ [Action.emitted "connected"])

/-- `_handleMessage(data)` on a successfully parsed message (lines 165-184):
if the message has an id with a registered pending request, delete it and run
its callback; always emit `message`. -/
def handleMessage (s : State) (m : Msg) : State × List Action :=
  match m.rpcId with
  | some i =>
    match mapGet s.pendingRequests i with
    | some cb =>
      ({ s with pendingRequests := mapDelete s.pendingRequests i },
       [Action.callbackRun cb m.payload, Action.emitted "message"])
    | none => (s, [Action.emitted "message"])
  | none => (s, [Action.emitted "message"])

/-- `_scheduleReconnect()` (lines 231-256): no-op when a reconnect timer is
already pending; otherwise increment the attempt counter, compute the capped
exponential delay, emit `reconnecting`, and set the reconnect timer. -/
def scheduleReconnect (s : State) : State × List Action :=
  if s.reconnectTimer = true then
    (s, [])
  else
    let attempts := s.reconnectAttempts + 1
    let delay := min
      (s.options.reconnectInterval * s.options.reconnectDecay ^ (attempts - 1))
      s.options.maxReconnectInterval
    ({ s with
        reconnectAttempts := attempts
        currentReconnectInterval := delay
        reconnectTimer := true },
     [Action.emitted "reconnecting"])

/-- `_handleClose(code, reason)` (lines 193-201): mark disconnected, stop the
heartbeat, emit `disconnected`, and schedule a reconnect when allowed. -/
def handleClose (s : State) : State × List Action :=
  let s1 := stopHeartbeat { s with connected := false }
  if s1.shouldReconnect = true then
    let r := scheduleReconnect s1
    (r.1, Action.emitted "disconnected" :: r.2)
  else
    (s1, [Action.emitted "disconnected"])

/-- `_handleError(error)` (lines 209-215): emit `error`; schedule a reconnect
when not connected and reconnection is allowed. -/
def handleError (s : State) : State × List Action :=
  if s.connected = false ∧ s.shouldReconnect = true then
    let r := scheduleReconnect s
    (r.1, Action.emitted "error" :: r.2)
  else
    (s, [Action.emitted "error"])

/-- `_handlePong()` (lines 222-224). -/
def handlePong (s : State) : State × List Action :=
  (s, [Action.emitted "heartbeat"])

/-- `connect()` (lines 108-133): early return when the current socket is
already OPEN; otherwise allow reconnection, create a fresh socket (readyState
CONNECTING) and arm the connection timeout. -/
def connect (s : State) : State × List Action :=
  if s.wsPresent = true ∧ s.wsReady = ReadyState.OPEN then
    (s, [])
  else
    ({ s with
        shouldReconnect := true
        wsPresent := true
        wsReady := ReadyState.CONNECTING
        connectionTimer := true },
     [Action.wsCreated])

/-- `disconnect()` (lines 394-419): forbid reconnection, clear the reconnect
and connection timers, stop the heartbeat, close and drop the socket, mark
disconnected. -/
def disconnect (s : State) : State × List Action :=
  let s1 := stopHeartbeat
    { s with shouldReconnect := false, reconnectTimer := false, connectionTimer := false }
  if s1.wsPresent = true then
    ({ s1 with wsPresent := false, connected := false }, [Action.wsCloseCalled])
  else
    ({ s1 with connected := false }, [])

/-- `send(method, params, callback)` (lines 357-364): send immediately when
`_connected`, otherwise push onto `messageQueue`. -/
def send (s : State) (method : String) (params : Nat)
    (callback : Option Nat) : State × List Action × Bool :=
  if s.connected = true then
    sendInternal s method params callback
  else
    ({ s with messageQueue := s.messageQueue ++ [⟨method, params, callback⟩] },
     [], false)

/-- `isConnected()` (lines 386-388). -/
def isConnected (s : State) : Bool :=
  s.connected && s.wsPresent && decide (s.wsReady = ReadyState.OPEN)

/-- `getQueueLength()` (lines 370-372). -/
def getQueueLength (s : State) : Nat :=
  s.messageQueue.length

/-- Stimuli the connector instance can receive: public API calls, events
delivered by the transport for the current socket, and firings of its own
pending timers.  A timer-fire event on a cleared (non-pending) timer is a
no-op: the cleared timer no longer exists. -/
inductive Event where
  | userConnect
  | userDisconnect
  | userSend (method : String) (params : Nat) (callback : Option Nat)
  | wsOpen
  | wsMessage (m : Msg)
  | wsMessageBad
  | wsClose
  | wsError
  | wsPong
  | reconnectFire
  | heartbeatFire
  | connectionFire
deriving DecidableEq, Repr

/-- One event step of the Node connector.  Transport events update the
socket readyState as the platform does before the handler runs; timer-fire
events run the corresponding `setTimeout`/`setInterval` callback bodies
(lines 118-123, 252-255, 268-272). -/
def step (s : State) (e : Event) : State × List Action :=
  match e with
  | .userConnect => connect s
  | .userDisconnect => disconnect s
  | .userSend m p cb =>
    let r := send s m p cb
    (r.1, r.2.1)
  | .wsOpen =>
    handleOpen (if s.wsPresent = true then { s with wsReady := ReadyState.OPEN } else s)
  | .wsMessage m => handleMessage s m
  | .wsMessageBad => (s, [Action.emitted "error"])
  | .wsClose =>
    handleClose (if s.wsPresent = true then { s with wsReady := ReadyState.CLOSED } else s)
  | .wsError => handleError s
  | .wsPong => handlePong s
  | .reconnectFire =>
    if s.reconnectTimer = true then
      let r := connect { s with reconnectTimer := false }
      (r.1, Action.timerFired "reconnect" :: r.2)
    else (s, [])
  | .heartbeatFire =>
    if s.heartbeatTimer = true then
      if s.wsPresent = true ∧ s.wsReady = ReadyState.OPEN then
        (s, [Action.timerFired "heartbeat", Action.wsPingSent])
      else
        (s, [Action.timerFired "heartbeat"])
    else (s, [])
  | .connectionFire =>
    if s.connectionTimer = true then
      let s1 := { s with connectionTimer := false }
      if s1.wsPresent = true ∧ s1.wsReady = ReadyState.OPEN then
        (s1, [Action.timerFired "connection"])
      else
        let s2 := if s1.wsPresent = true then { s1 with wsReady := ReadyState.CLOSED } else s1
        let term : List Action :=
          if s1.wsPresent = true then [Action.wsTerminated] else []
        let r := handleError s2
        (r.1, Action.timerFired "connection" :: (term ++ r.2))
    else (s, [])

/-- Run a sequence of events, concatenating the produced actions. -/
def run : State → List Event → State × List Action
  | s, [] => (s, [])
  | s, e :: es =>
    let r := step s e
    let r2 := run r.1 es
    (r2.1, r.2 ++ r2.2)

end Cjs

namespace Browser

/-- One parsed inbound message of the browser connector: a handshake
challenge, a response envelope (`type: res`) with id, ok flag and an opaque
error token, a pong frame, or any other data message. -/
inductive BMsg where
  | challenge (nonce : Nat)
  | res (rid : Nat) (ok : Bool) (errCode : Nat)
  | pong
  | other (payload : Nat)
deriving DecidableEq, Repr

/-- Instance state of the browser `ButterConnector` (constructor,
butter-connector-browser.js lines 111-144).  `pendingReconnects` counts
reconnect `setTimeout`s currently pending: the code stores no handle for
them (line 351), so they can never be cleared.  `nextReqId` models the
freshness source behind `this.connectRequestId = 'req-' + Date.now()`. -/
structure BState where
  wsPresent : Bool
  connected : Bool
  reconnectAttempts : Nat
  maxReconnectAttempts : Nat
  reconnectDelay : Nat
  connectRequestId : Option Nat
  shouldReconnect : Bool
  pingInterval : Bool
  pongTimeout : Bool
  missedPongs : Nat
  maxMissedPongs : Nat
  pendingReconnects : Nat
  nextReqId : Nat
deriving DecidableEq, Repr

/-- Constructor state (lines 111-144). -/
def init : BState :=
  { wsPresent := false
    connected := false
    reconnectAttempts := 0
    maxReconnectAttempts := 5
    reconnectDelay := 1000
    connectRequestId := none
    shouldReconnect := true
    pingInterval := false
    pongTimeout := false
    missedPongs := 0
    maxMissedPongs := 2
    pendingReconnects := 0
    nextReqId := 0 }

/-- `_stopKeepalive()` (lines 277-286): clear the ping interval and the
pong timeout. -/
def stopKeepalive (s : BState) : BState :=
  { s with pingInterval := false, pongTimeout := false }

/-- `_startKeepalive()` (lines 266-271). -/
def startKeepalive (s : BState) : BState :=
  { stopKeepalive s with pingInterval := true }

/-- `disconnect()` (lines 361-368): stop keepalive, close and drop the
socket, mark disconnected.  It does NOT touch `shouldReconnect` and cannot
cancel a pending reconnect `setTimeout` (no handle is stored). -/
def disconnect (s : BState) : BState × List Action :=
  let s1 := stopKeepalive s
  if s1.wsPresent = true then
    ({ s1 with wsPresent := false, connected := false }, [Action.wsCloseCalled])
  else
    ({ s1 with connected := false }, [])

/-- `connect()` (lines 151-226): reset `shouldReconnect` to true and open a
fresh socket (handlers are installed; logical connection waits for the
handshake). -/
def connect (s : BState) : BState × List Action :=
  ({ s with shouldReconnect := true, wsPresent := true }, [Action.wsCreated])

/-- `_attemptReconnect()` (lines 339-352): give up past the attempt cap,
otherwise increment the counter and schedule `connect` after the
exponential delay (the timer handle is not stored). -/
def attemptReconnect (s : BState) : BState × List Action :=
  if s.reconnectAttempts ≥ s.maxReconnectAttempts then
    (s, [Action.emitted "reconnect_failed"])
  else
    ({ s with
        reconnectAttempts := s.reconnectAttempts + 1
        pendingReconnects := s.pendingReconnects + 1 },
     [])

/-- The `onclose` handler (lines 162-176): mark disconnected, stop
keepalive, emit `disconnected`, and reconnect only when `shouldReconnect`. -/
def handleClose (s : BState) : BState × List Action :=
  let s1 := stopKeepalive { s with connected := false }
  if s1.shouldReconnect = true then
    let r := attemptReconnect s1
    (r.1, Action.emitted "disconnected" :: r.2)
  else
    (s1, [Action.emitted "disconnected"])

/-- `_sendHandshake(nonce)` (lines 228-260): record a fresh connect request
id and write the handshake request to the socket when present. -/
def sendHandshake (s : BState) : BState × List Action :=
  let rid := s.nextReqId
  let s1 := { s with connectRequestId := some rid, nextReqId := rid + 1 }
  if s1.wsPresent = true then
    (s1, [Action.wsSentRaw "handshake"])
  else
    (s1, [])

/-- `_handlePong()` (lines 313-322): reset `missedPongs` and clear the pong
timeout. -/
def handlePong (s : BState) : BState × List Action :=
  ({ s with missedPongs := 0, pongTimeout := false }, [])

/-- `_handlePongTimeout()` (lines 328-337): increment `missedPongs`; at the
threshold call `disconnect()` (reconnection then happens through `onclose`,
since `shouldReconnect` is left alone). -/
def handlePongTimeout (s : BState) : BState × List Action :=
  let s1 := { s with missedPongs := s.missedPongs + 1 }
  if s1.missedPongs ≥ s1.maxMissedPongs then
    disconnect s1
  else
    (s1, [])

/-- `_sendPing()` (lines 292-307): when connected with a socket, write a
ping frame and arm the pong timeout. -/
def sendPing (s : BState) : BState × List Action :=
  if s.connected = false ∨ s.wsPresent = false then
    (s, [])
  else
    ({ s with pongTimeout := true }, [Action.wsSentRaw "ping"])

/-- The `onmessage` handler (lines 183-221): dispatch on the message class.
A response whose id matches the outstanding connect request either
completes the handshake (ok) or — for ANY rejection — forbids reconnection
and tears the connection down without dispatching an error event. -/
def handleMessage (s : BState) (m : BMsg) : BState × List Action :=
  match m with
  | .challenge _ => sendHandshake s
  | .res rid ok _ =>
    if s.connectRequestId = some rid then
      if ok = true then
        (startKeepalive
          { s with connected := true, reconnectAttempts := 0, missedPongs := 0 },
         [Action.emitted "connected"])
      else
        disconnect { s with shouldReconnect := false }
    else
      (s, [Action.emitted "message"])
  | .pong => handlePong s
  | .other _ => (s, [Action.emitted "message"])

/-- `send(data)` (lines 354-359): throws when not connected (modelled as a
false success flag), otherwise writes the payload. -/
def send (s : BState) (tag : String) : BState × List Action × Bool :=
  if s.connected = false ∨ s.wsPresent = false then
    (s, [], false)
  else
    (s, [Action.wsSentRaw tag], true)

/-- `isConnected` for the browser connector: the `connected` flag. -/
def isConnected (s : BState) : Bool :=
  s.connected

/-- Stimuli of the browser connector: API calls, transport events, and
firings of its pending timers (ping interval, pong timeout, reconnect
timeout). -/
inductive BEvent where
  | userConnect
  | userDisconnect
  | wsClose
  | wsError
  | wsMessage (m : BMsg)
  | pingFire
  | pongTimeoutFire
  | reconnectFire
deriving DecidableEq, Repr

/-- One event step of the browser connector.  A timer-fire event is a no-op
unless such a timer is pending; the ping interval stays armed after firing,
the one-shot timeouts are spent by firing. -/
def step (s : BState) (e : BEvent) : BState × List Action :=
  match e with
  | .userConnect => connect s
  | .userDisconnect => disconnect s
  | .wsClose => handleClose s
  | .wsError => (s, [Action.emitted "error"])
  | .wsMessage m => handleMessage s m
  | .pingFire =>
    if s.pingInterval = true then
      let r := sendPing s
      (r.1, Action.timerFired "ping" :: r.2)
    else (s, [])
  | .pongTimeoutFire =>
    if s.pongTimeout = true then
      let r := handlePongTimeout { s with pongTimeout := false }
      (r.1, Action.timerFired "pongTimeout" :: r.2)
    else (s, [])
  | .reconnectFire =>
    if 0 < s.pendingReconnects then
      let r := connect { s with pendingReconnects := s.pendingReconnects - 1 }
      (r.1, Action.timerFired "reconnect" :: r.2)
    else (s, [])

/-- Run a sequence of events, concatenating the produced actions. -/
def run : BState → List BEvent → BState × List Action
  | s, [] => (s, [])
  | s, e :: es =>
    let r := step s e
    let r2 := run r.1 es
    (r2.1, r.2 ++ r2.2)

/-- A logically connected browser state, reached from the constructor state
by opening the socket, answering the challenge, and receiving the handshake
accept. -/
def connectedState : BState :=
  (run init
    [BEvent.userConnect,
     BEvent.wsMessage (BMsg.challenge 5),
     BEvent.wsMessage (BMsg.res 0 true 0)]).1

end Browser

/-- The (method, params) pairs of the JSON-RPC requests an action list
writes to the transport, in wire order. -/
def sentRpcPairs (acts : List Action) : List (String × Nat) :=
  acts.filterMap (fun a => match a with
    | Action.wsSentRpc _ m p => some (m, p)
    | _ => none)

/-- The correlation ids of the JSON-RPC requests an action list writes to
the transport, in wire order. -/
def sentRpcIds (acts : List Action) : List Nat :=
  acts.filterMap (fun a => match a with
    | Action.wsSentRpc (some i) _ _ => some i
    | _ => none)

namespace Cjs

/-- The delay formula of `_scheduleReconnect` (lines 239-242) as a function
of the attempt number `n` it is computed for. -/
def reconnectDelayAt (o : Options) (n : Nat) : Nat :=
  min (o.reconnectInterval * o.reconnectDecay ^ (n - 1)) o.maxReconnectInterval

/-- Post-`disconnect()` quiescence: reconnection forbidden, no pending
timer of any kind, not connected. -/
def quiescent (s : State) : Prop :=
  s.shouldReconnect = false ∧ s.reconnectTimer = false ∧
  s.heartbeatTimer = false ∧ s.connectionTimer = false ∧ s.connected = false

/-- Events that can still reach the connector after `disconnect()` and
before the next `connect()`: everything except a caller `connect()` and an
open notification (the closed socket can deliver close, error and buffered
messages, but never open). -/
def benign (e : Event) : Prop :=
  e ≠ Event.userConnect ∧ e ≠ Event.wsOpen

instance (e : Event) : Decidable (benign e) := by
  unfold benign
  infer_instance

/-- Every registered correlation id is at most the id counter: the
invariant making freshly generated ids distinct from all outstanding ones. -/
def pendingBounded (s : State) : Prop :=
  ∀ p ∈ s.pendingRequests, p.1 ≤ s.messageId

instance (s : State) : Decidable (pendingBounded s) := by
  unfold pendingBounded
  infer_instance

/-- Whenever a socket object exists, reconnection is enabled: `disconnect()`
is the only writer of `shouldReconnect := false` and it nulls the socket. -/
def wsReconnectInv (s : State) : Prop :=
  s.wsPresent = true → s.shouldReconnect = true

/-- The backoff options of the spec scenario: base 50 ms, decay 2,
cap 200 ms. -/
def scenarioOptions : Options :=
  { reconnectInterval := 50
    maxReconnectInterval := 200
    reconnectDecay := 2
    heartbeatInterval := 30000
    connectionTimeout := 10000 }

/-- A connected Node-connector state holding one outstanding pending
request (id 1, callback token 7), reached from the constructor state. -/
def connectedPendingState : State :=
  (run (init defaultOptions)
    [Event.userConnect, Event.wsOpen, Event.userSend "m" 5 (some 7)]).1

/-- A Node-connector state whose socket just reached OPEN (the open event
is about to be handled) with two messages queued while offline. -/
def qOpenState : State :=
  { init defaultOptions with
      wsPresent := true
      wsReady := ReadyState.OPEN
      messageQueue := [⟨"a", 1, none⟩, ⟨"b", 2, some 9⟩] }

/-- The Node-connector state right after a first `connect()` call, while
the socket is still CONNECTING. -/
def connectingState : State :=
  (run (init defaultOptions) [Event.userConnect]).1

end Cjs

namespace Browser

/-- Connected browser state with a ping outstanding (pong timeout armed,
no missed pongs yet). -/
def probeState : BState :=
  (run connectedState [BEvent.pingFire]).1

/-- Connected browser state with one missed pong already counted and a
second pong timeout armed. -/
def probeState2 : BState :=
  (run connectedState [BEvent.pingFire, BEvent.pongTimeoutFire, BEvent.pingFire]).1

/-- Browser state awaiting the handshake accept/reject: socket open,
challenge answered, `connectRequestId = some 0`. -/
def awaitingAcceptState : BState :=
  (run init [BEvent.userConnect, BEvent.wsMessage (BMsg.challenge 5)]).1

end Browser

/-! ### Helper lemmas about the pending-request map model -/

namespace Cjs

theorem mapGet_eq_none {m : List (Nat × Nat)} {k : Nat}
    (h : ∀ p ∈ m, p.1 ≠ k) : mapGet m k = none := by
  induction m with
  | nil => rfl
  | cons p rest ih =>
    have hp := h p (by simp)
    simp only [mapGet, if_neg hp]
    exact ih (fun q hq => h q (by simp [hq]))

theorem mapGet_mapDelete_self (m : List (Nat × Nat)) (k : Nat) :
    mapGet (mapDelete m k) k = none := by
  apply mapGet_eq_none
  intro p hp
  have := List.of_mem_filter hp
  simpa using this

theorem mapGet_append_of_none {m : List (Nat × Nat)} {k : Nat} (v : Nat)
    (h : mapGet m k = none) : mapGet (m ++ [(k, v)]) k = some v := by
  induction m with
  | nil => simp [mapGet]
  | cons p rest ih =>
    by_cases hp : p.1 = k
    · simp [mapGet, hp] at h
    · simp only [mapGet, if_neg hp] at h
      simpa [mapGet, hp] using ih h

theorem mapGet_map_replace {m : List (Nat × Nat)} {k : Nat} (v : Nat)
    (h : (mapGet m k).isSome) :
    mapGet (m.map (fun p => if p.1 = k then (k, v) else p)) k = some v := by
  induction m with
  | nil => simp [mapGet] at h
  | cons p rest ih =>
    by_cases hp : p.1 = k
    · simp [mapGet, hp]
    · simp only [mapGet, if_neg hp] at h
      simpa [mapGet, hp] using ih h

theorem mapGet_mapSet_self (m : List (Nat × Nat)) (k v : Nat) :
    mapGet (mapSet m k v) k = some v := by
  unfold mapSet
  split
  · exact mapGet_map_replace v (by assumption)
  · rename_i h
    apply mapGet_append_of_none
    cases hmk : mapGet m k with
    | none => rfl
    | some w => rw [hmk] at h; simp at h

theorem mapSet_bound {m : List (Nat × Nat)} {B k v : Nat}
    (hm : ∀ p ∈ m, p.1 ≤ B) (hk : k ≤ B) :
    ∀ p ∈ mapSet m k v, p.1 ≤ B := by
  intro p hp
  unfold mapSet at hp
  split at hp
  · rcases List.mem_map.mp hp with ⟨q, hq, hqe⟩
    by_cases hq1 : q.1 = k
    · simp only [if_pos hq1] at hqe
      subst hqe
      exact hk
    · simp only [if_neg hq1] at hqe
      exact hqe ▸ hm q hq
  · rcases List.mem_append.mp hp with h | h
    · exact hm p h
    · simp only [List.mem_singleton] at h
      subst h
      exact hk

theorem mapDelete_sub {m : List (Nat × Nat)} {k : Nat} :
    ∀ p ∈ mapDelete m k, p ∈ m := by
  intro p hp
  exact List.mem_of_mem_filter hp

/-! ### Shape lemmas: `_sendInternal` and `_flushQueue` touch only
`messageId` and `pendingRequests` (besides emitting wire actions). -/

theorem sendInternal_shape (s : State) (m : String) (p : Nat) (cb : Option Nat) :
    ∃ mid pr, (sendInternal s m p cb).1
      = { s with messageId := mid, pendingRequests := pr } := by
  unfold sendInternal
  split
  · cases cb with
    | some c => exact ⟨s.messageId + 1, _, rfl⟩
    | none => exact ⟨s.messageId + 1, s.pendingRequests, rfl⟩
  · exact ⟨s.messageId, s.pendingRequests, rfl⟩

theorem sendInternal_open (s : State) (m : String) (p : Nat) (cb : Option Nat)
    (hw : s.wsPresent = true) (hr : s.wsReady = ReadyState.OPEN) :
    (sendInternal s m p cb).2.1 = [Action.wsSentRpc (some (s.messageId + 1)) m p] ∧
    (sendInternal s m p cb).2.2 = true ∧
    (sendInternal s m p cb).1.messageId = s.messageId + 1 ∧
    (sendInternal s m p cb).1.connected = s.connected ∧
    (sendInternal s m p cb).1.wsPresent = true ∧
    (sendInternal s m p cb).1.wsReady = ReadyState.OPEN ∧
    (sendInternal s m p cb).1.messageQueue = s.messageQueue ∧
    (∀ c, cb = some c →
      (sendInternal s m p cb).1.pendingRequests
        = mapSet s.pendingRequests (s.messageId + 1) c) ∧
    (cb = none → (sendInternal s m p cb).1.pendingRequests = s.pendingRequests) := by
  unfold sendInternal
  rw [if_pos ⟨hw, hr⟩]
  cases cb <;> simp [hw, hr]

theorem flushGo_shape (q : List QueueEntry) :
    ∀ s : State, s.connected = true →
      ∃ mid pr, (flushGo q s).1
        = { s with messageId := mid, pendingRequests := pr } := by
  induction q with
  | nil =>
    intro s h
    exact ⟨s.messageId, s.pendingRequests, rfl⟩
  | cons e rest ih =>
    intro s h
    obtain ⟨mid1, pr1, h1⟩ := sendInternal_shape s e.method e.params e.callback
    have hc : (sendInternal s e.method e.params e.callback).1.connected = true := by
      rw [h1]; exact h
    obtain ⟨mid2, pr2, h2⟩ := ih _ hc
    refine ⟨mid2, pr2, ?_⟩
    show (flushGo (e :: rest) s).1 = _
    unfold flushGo
    rw [if_pos h]
    simp only []
    rw [h2, h1]

theorem sendInternal_bounded {s : State} (m : String) (p : Nat) (cb : Option Nat)
    (hb : pendingBounded s) : pendingBounded (sendInternal s m p cb).1 := by
  unfold sendInternal
  split
  · cases cb with
    | some c =>
      intro q hq
      simp only at hq ⊢
      refine mapSet_bound (B := s.messageId + 1) ?_ (le_refl _) q hq
      intro r hr
      exact le_trans (hb r hr) (by omega)
    | none =>
      intro q hq
      simp only at hq ⊢
      exact le_trans (hb q hq) (by omega)
  · exact hb

theorem flushGo_bounded (q : List QueueEntry) :
    ∀ s : State, pendingBounded s → pendingBounded (flushGo q s).1 := by
  induction q with
  | nil => intro s hb; exact hb
  | cons e rest ih =>
    intro s hb
    unfold flushGo
    split
    · exact ih _ (sendInternal_bounded _ _ _ hb)
    · exact hb

theorem flushGo_sent (q : List QueueEntry) :
    ∀ s : State, s.connected = true → s.wsPresent = true → s.wsReady = ReadyState.OPEN →
      sentRpcPairs (flushGo q s).2 = q.map (fun e => (e.method, e.params)) ∧
      sentRpcIds (flushGo q s).2 = List.range' (s.messageId + 1) q.length ∧
      (flushGo q s).1.messageId = s.messageId + q.length := by
  induction q with
  | nil =>
    intro s h hw hr
    simp [flushGo, sentRpcPairs, sentRpcIds]
  | cons e rest ih =>
    intro s h hw hr
    have ho := sendInternal_open s e.method e.params e.callback hw hr
    have hc : (sendInternal s e.method e.params e.callback).1.connected = true := by
      rw [ho.2.2.2.1]; exact h
    have ih2 := ih (sendInternal s e.method e.params e.callback).1 hc
      ho.2.2.2.2.1 ho.2.2.2.2.2.1
    unfold flushGo
    rw [if_pos h]
    simp only []
    rw [ho.1]
    refine ⟨?_, ?_, ?_⟩
    · simp only [sentRpcPairs, List.filterMap_append] at ih2 ⊢
      rw [ih2.1]
      simp [List.map_cons]
    · simp only [sentRpcIds, List.filterMap_append] at ih2 ⊢
      rw [ih2.2.1, ho.2.2.1]
      simp [List.range'_succ]
    · rw [ih2.2.2, ho.2.2.1]
      simp [List.length_cons]
      omega

theorem handleOpen_shape (s : State) :
    ∃ mid pr, (handleOpen s).1
      = { s with connected := true, reconnectAttempts := 0,
                 currentReconnectInterval := s.options.reconnectInterval,
                 connectionTimer := false, heartbeatTimer := true,
                 messageQueue := [], messageId := mid, pendingRequests := pr } := by
  obtain ⟨mid, pr, h⟩ := flushGo_shape s.messageQueue
    { s with connected := true, reconnectAttempts := 0,
             currentReconnectInterval := s.options.reconnectInterval,
             connectionTimer := false, messageQueue := [] } rfl
  refine ⟨mid, pr, ?_⟩
  unfold handleOpen flushQueue startHeartbeat
  simp only []
  rw [h]

/-! ### Quiescence after `disconnect()` (the Node connector) -/

theorem disconnect_quiescent (s : State) : quiescent (disconnect s).1 := by
  unfold quiescent
  simp only [disconnect, stopHeartbeat]
  split <;> exact ⟨rfl, rfl, rfl, rfl, rfl⟩

theorem step_quiescent {s : State} {e : Event} (hq : quiescent s) (hbe : benign e) :
    quiescent (step s e).1 ∧ ∀ a ∈ (step s e).2, a.isTimerFire = false := by
  obtain ⟨h1, h2, h3, h4, h5⟩ := hq
  obtain ⟨hb1, hb2⟩ := hbe
  cases e with
  | userConnect => exact absurd rfl hb1
  | wsOpen => exact absurd rfl hb2
  | userDisconnect =>
    refine ⟨disconnect_quiescent s, ?_⟩
    show ∀ a ∈ (disconnect s).2, a.isTimerFire = false
    intro a ha
    simp only [disconnect, stopHeartbeat] at ha
    split at ha
    · simp only [List.mem_singleton] at ha; subst ha; rfl
    · simp at ha
  | userSend m p cb =>
    show quiescent (send s m p cb).1 ∧ ∀ a ∈ (send s m p cb).2.1, a.isTimerFire = false
    unfold send
    rw [if_neg (by rw [h5]; simp)]
    exact ⟨⟨h1, h2, h3, h4, h5⟩, by intro a ha; simp at ha⟩
  | wsMessage m =>
    show quiescent (handleMessage s m).1 ∧ ∀ a ∈ (handleMessage s m).2, a.isTimerFire = false
    unfold handleMessage
    rcases m.rpcId with _ | i
    · exact ⟨⟨h1, h2, h3, h4, h5⟩, by intro a ha; simp at ha; subst ha; rfl⟩
    · simp only []
      rcases mapGet s.pendingRequests i with _ | cb
      · exact ⟨⟨h1, h2, h3, h4, h5⟩, by intro a ha; simp at ha; subst ha; rfl⟩
      · refine ⟨⟨h1, h2, h3, h4, h5⟩, ?_⟩
        intro a ha
        simp at ha
        rcases ha with ha | ha <;> subst ha <;> rfl
  | wsMessageBad =>
    exact ⟨⟨h1, h2, h3, h4, h5⟩, by intro a ha; simp [step] at ha; subst ha; rfl⟩
  | wsClose =>
    show quiescent (handleClose _).1 ∧ ∀ a ∈ (handleClose _).2, a.isTimerFire = false
    have key : ∀ t : State, t.shouldReconnect = false → t.reconnectTimer = false →
        t.connectionTimer = false →
        quiescent (handleClose t).1 ∧ ∀ a ∈ (handleClose t).2, a.isTimerFire = false := by
      intro t ht1 ht2 ht4
      unfold handleClose stopHeartbeat
      rw [if_neg (by simp [ht1])]
      exact ⟨⟨ht1, ht2, rfl, ht4, rfl⟩, by intro a ha; simp at ha; subst ha; rfl⟩
    split
    · exact key _ h1 h2 h4
    · exact key _ h1 h2 h4
  | wsError =>
    show quiescent (handleError s).1 ∧ ∀ a ∈ (handleError s).2, a.isTimerFire = false
    unfold handleError
    rw [if_neg (by rw [h1]; simp)]
    exact ⟨⟨h1, h2, h3, h4, h5⟩, by intro a ha; simp at ha; subst ha; rfl⟩
  | wsPong =>
    exact ⟨⟨h1, h2, h3, h4, h5⟩, by intro a ha; simp [step, handlePong] at ha; subst ha; rfl⟩
  | reconnectFire =>
    have hstep : step s Event.reconnectFire = (s, []) := by
      show (if s.reconnectTimer = true then _ else (s, [])) = (s, [])
      rw [if_neg (by simp [h2])]
    rw [hstep]
    exact ⟨⟨h1, h2, h3, h4, h5⟩, by intro a ha; exact absurd ha (List.not_mem_nil a)⟩
  | heartbeatFire =>
    have hstep : step s Event.heartbeatFire = (s, []) := by
      show (if s.heartbeatTimer = true then _ else (s, [])) = (s, [])
      rw [if_neg (by simp [h3])]
    rw [hstep]
    exact ⟨⟨h1, h2, h3, h4, h5⟩, by intro a ha; exact absurd ha (List.not_mem_nil a)⟩
  | connectionFire =>
    have hstep : step s Event.connectionFire = (s, []) := by
      show (if s.connectionTimer = true then _ else (s, [])) = (s, [])
      rw [if_neg (by simp [h4])]
    rw [hstep]
    exact ⟨⟨h1, h2, h3, h4, h5⟩, by intro a ha; exact absurd ha (List.not_mem_nil a)⟩

theorem run_quiescent : ∀ (evs : List Event) (s : State), quiescent s →
    (∀ e ∈ evs, benign e) →
    quiescent (run s evs).1 ∧ ∀ a ∈ (run s evs).2, a.isTimerFire = false
  | [], _, hq, _ => ⟨hq, by intro a ha; exact absurd ha (List.not_mem_nil a)⟩
  | e :: es, s, hq, hb => by
    have hs := step_quiescent hq (hb e (by simp))
    have hr := run_quiescent es (step s e).1 hs.1 (fun x hx => hb x (by simp [hx]))
    refine ⟨hr.1, ?_⟩
    intro a ha
    have ha2 : a ∈ (step s e).2 ++ (run (step s e).1 es).2 := ha
    rcases List.mem_append.mp ha2 with h | h
    · exact hs.2 a h
    · exact hr.2 a h

/-! ### Field-preservation facts for each handler -/

theorem connect_core (s : State) :
    (connect s).1.pendingRequests = s.pendingRequests ∧
    (connect s).1.messageId = s.messageId ∧
    (connect s).1.messageQueue = s.messageQueue ∧
    (connect s).1.connected = s.connected ∧
    (connect s).1.reconnectAttempts = s.reconnectAttempts ∧
    (connect s).1.reconnectTimer = s.reconnectTimer := by
  unfold connect
  split
  · exact ⟨rfl, rfl, rfl, rfl, rfl, rfl⟩
  · exact ⟨rfl, rfl, rfl, rfl, rfl, rfl⟩

theorem disconnect_core (s : State) :
    (disconnect s).1.pendingRequests = s.pendingRequests ∧
    (disconnect s).1.messageId = s.messageId ∧
    (disconnect s).1.messageQueue = s.messageQueue ∧
    (disconnect s).1.connected = false ∧
    (disconnect s).1.shouldReconnect = false ∧
    (disconnect s).1.wsPresent = false := by
  simp only [disconnect, stopHeartbeat]
  split
  · exact ⟨rfl, rfl, rfl, rfl, rfl, rfl⟩
  · rename_i h
    refine ⟨rfl, rfl, rfl, rfl, rfl, ?_⟩
    simpa using h

theorem handleClose_core (s : State) :
    (handleClose s).1.pendingRequests = s.pendingRequests ∧
    (handleClose s).1.messageId = s.messageId ∧
    (handleClose s).1.messageQueue = s.messageQueue ∧
    (handleClose s).1.wsPresent = s.wsPresent ∧
    (handleClose s).1.wsReady = s.wsReady ∧
    (handleClose s).1.shouldReconnect = s.shouldReconnect ∧
    (handleClose s).1.connected = false ∧
    (handleClose s).1.options = s.options := by
  simp only [handleClose, stopHeartbeat, scheduleReconnect]
  split
  · split
    · exact ⟨rfl, rfl, rfl, rfl, rfl, rfl, rfl, rfl⟩
    · exact ⟨rfl, rfl, rfl, rfl, rfl, rfl, rfl, rfl⟩
  · exact ⟨rfl, rfl, rfl, rfl, rfl, rfl, rfl, rfl⟩

theorem handleError_core (s : State) :
    (handleError s).1.pendingRequests = s.pendingRequests ∧
    (handleError s).1.messageId = s.messageId ∧
    (handleError s).1.messageQueue = s.messageQueue ∧
    (handleError s).1.wsPresent = s.wsPresent ∧
    (handleError s).1.wsReady = s.wsReady ∧
    (handleError s).1.shouldReconnect = s.shouldReconnect ∧
    (handleError s).1.connected = s.connected ∧
    (handleError s).1.heartbeatTimer = s.heartbeatTimer ∧
    (handleError s).1.options = s.options := by
  simp only [handleError, scheduleReconnect]
  split
  · split
    · exact ⟨rfl, rfl, rfl, rfl, rfl, rfl, rfl, rfl, rfl⟩
    · exact ⟨rfl, rfl, rfl, rfl, rfl, rfl, rfl, rfl, rfl⟩
  · exact ⟨rfl, rfl, rfl, rfl, rfl, rfl, rfl, rfl, rfl⟩

theorem handleMessage_shape (s : State) (m : Msg) :
    ∃ pr, (handleMessage s m).1 = { s with pendingRequests := pr } := by
  unfold handleMessage
  rcases m.rpcId with _ | i
  · exact ⟨s.pendingRequests, rfl⟩
  · simp only []
    rcases mapGet s.pendingRequests i with _ | cb
    · exact ⟨s.pendingRequests, rfl⟩
    · exact ⟨mapDelete s.pendingRequests i, rfl⟩

/-! ### Preservation of the id-freshness invariant -/

theorem pendingBounded_congr {s t : State} (hp : t.pendingRequests = s.pendingRequests)
    (hm : t.messageId = s.messageId) (hb : pendingBounded s) : pendingBounded t := by
  unfold pendingBounded at *
  simp only [hp, hm]
  exact hb

theorem handleMessage_bounded {s : State} (m : Msg) (hb : pendingBounded s) :
    pendingBounded (handleMessage s m).1 := by
  unfold handleMessage
  rcases m.rpcId with _ | i
  · exact hb
  · simp only []
    rcases mapGet s.pendingRequests i with _ | cb
    · exact hb
    · intro p hp
      exact hb p (mapDelete_sub p hp)

theorem step_bounded {s : State} (e : Event) (hb : pendingBounded s) :
    pendingBounded (step s e).1 := by
  have keyErr : ∀ t : State, pendingBounded t → pendingBounded (handleError t).1 := by
    intro t ht
    have hc := handleError_core t
    exact pendingBounded_congr hc.1 hc.2.1 ht
  cases e with
  | userConnect =>
    have hc := connect_core s
    exact pendingBounded_congr hc.1 hc.2.1 hb
  | userDisconnect =>
    have hd := disconnect_core s
    exact pendingBounded_congr hd.1 hd.2.1 hb
  | userSend m p cb =>
    show pendingBounded (send s m p cb).1
    unfold send
    split
    · exact sendInternal_bounded _ _ _ hb
    · exact hb
  | wsOpen =>
    have key : ∀ t : State, pendingBounded t → pendingBounded (handleOpen t).1 := by
      intro t ht p hp
      exact flushGo_bounded t.messageQueue
        { t with connected := true, reconnectAttempts := 0,
                 currentReconnectInterval := t.options.reconnectInterval,
                 connectionTimer := false, messageQueue := [] } ht p hp
    show pendingBounded (handleOpen _).1
    split
    · exact key _ hb
    · exact key _ hb
  | wsMessage m => exact handleMessage_bounded m hb
  | wsMessageBad => exact hb
  | wsClose =>
    have key : ∀ t : State, pendingBounded t → pendingBounded (handleClose t).1 := by
      intro t ht
      have hc := handleClose_core t
      exact pendingBounded_congr hc.1 hc.2.1 ht
    show pendingBounded (handleClose _).1
    split
    · exact key _ hb
    · exact key _ hb
  | wsError => exact keyErr s hb
  | wsPong => exact hb
  | reconnectFire =>
    show pendingBounded (if s.reconnectTimer = true then _ else (s, [])).1
    split
    · have hc := connect_core { s with reconnectTimer := false }
      exact pendingBounded_congr hc.1 hc.2.1 hb
    · exact hb
  | heartbeatFire =>
    show pendingBounded (if s.heartbeatTimer = true then _ else (s, [])).1
    split
    · split
      · exact hb
      · exact hb
    · exact hb
  | connectionFire =>
    show pendingBounded (if s.connectionTimer = true then _ else (s, [])).1
    split
    · split
      · exact hb
      · split
        · exact keyErr _ hb
        · exact keyErr _ hb
    · exact hb

/-! ### Preservation of the socket-implies-reconnect invariant -/

theorem wsInv_congr {s t : State} (hw : t.wsPresent = s.wsPresent)
    (hr : t.shouldReconnect = s.shouldReconnect) (hv : wsReconnectInv s) :
    wsReconnectInv t := by
  intro h
  rw [hw] at h
  rw [hr]
  exact hv h

theorem step_wsInv {s : State} (e : Event) (hv : wsReconnectInv s) :
    wsReconnectInv (step s e).1 := by
  have keyErr : ∀ t : State, wsReconnectInv t → wsReconnectInv (handleError t).1 := by
    intro t ht
    have hc := handleError_core t
    exact wsInv_congr hc.2.2.2.1 hc.2.2.2.2.2.1 ht
  cases e with
  | userConnect =>
    show wsReconnectInv (connect s).1
    unfold connect
    split
    · exact hv
    · intro _; rfl
  | userDisconnect =>
    show wsReconnectInv (disconnect s).1
    intro h
    rw [(disconnect_core s).2.2.2.2.2] at h
    exact Bool.noConfusion h
  | userSend m p cb =>
    show wsReconnectInv (send s m p cb).1
    unfold send
    split
    · obtain ⟨mid, pr, hsh⟩ := sendInternal_shape s m p cb
      rw [hsh]
      exact wsInv_congr rfl rfl hv
    · exact wsInv_congr rfl rfl hv
  | wsOpen =>
    have key : ∀ t : State, wsReconnectInv t → wsReconnectInv (handleOpen t).1 := by
      intro t ht
      obtain ⟨mid, pr, hsh⟩ := handleOpen_shape t
      rw [hsh]
      exact wsInv_congr rfl rfl ht
    show wsReconnectInv (handleOpen _).1
    split
    · exact key _ (wsInv_congr rfl rfl hv)
    · exact key _ hv
  | wsMessage m =>
    obtain ⟨pr, hsh⟩ := handleMessage_shape s m
    show wsReconnectInv (handleMessage s m).1
    rw [hsh]
    exact wsInv_congr rfl rfl hv
  | wsMessageBad => exact hv
  | wsClose =>
    have key : ∀ t : State, wsReconnectInv t → wsReconnectInv (handleClose t).1 := by
      intro t ht
      have hc := handleClose_core t
      exact wsInv_congr hc.2.2.2.1 hc.2.2.2.2.2.1 ht
    show wsReconnectInv (handleClose _).1
    split
    · exact key _ (wsInv_congr rfl rfl hv)
    · exact key _ hv
  | wsError => exact keyErr s hv
  | wsPong => exact hv
  | reconnectFire =>
    show wsReconnectInv (if s.reconnectTimer = true then _ else (s, [])).1
    split
    · show wsReconnectInv (connect _).1
      unfold connect
      split
      · exact wsInv_congr rfl rfl hv
      · intro _; rfl
    · exact hv
  | heartbeatFire =>
    show wsReconnectInv (if s.heartbeatTimer = true then _ else (s, [])).1
    split
    · split
      · exact hv
      · exact hv
    · exact hv
  | connectionFire =>
    show wsReconnectInv (if s.connectionTimer = true then _ else (s, [])).1
    split
    · split
      · exact wsInv_congr rfl rfl hv
      · split
        · exact keyErr _ (wsInv_congr rfl rfl hv)
        · exact keyErr _ (wsInv_congr rfl rfl hv)
    · exact hv

end Cjs

/-! ### Helper lemmas for the browser connector -/

namespace Browser

theorem bdisconnect_core (s : BState) :
    (disconnect s).1.pingInterval = false ∧
    (disconnect s).1.pongTimeout = false ∧
    (disconnect s).1.connected = false ∧
    (disconnect s).1.wsPresent = false ∧
    (disconnect s).1.shouldReconnect = s.shouldReconnect ∧
    (disconnect s).1.pendingReconnects = s.pendingReconnects ∧
    (disconnect s).1.missedPongs = s.missedPongs ∧
    (disconnect s).1.maxMissedPongs = s.maxMissedPongs ∧
    (disconnect s).1.reconnectAttempts = s.reconnectAttempts ∧
    (s.wsPresent = true → Action.wsCloseCalled ∈ (disconnect s).2) := by
  simp only [disconnect, stopKeepalive]
  split
  · exact ⟨rfl, rfl, rfl, rfl, rfl, rfl, rfl, rfl, rfl, fun _ => by simp⟩
  · rename_i hw
    exact ⟨rfl, rfl, rfl, by simpa using hw, rfl, rfl, rfl, rfl, rfl,
      fun h => absurd h (by simpa using hw)⟩

theorem bhandleClose_schedules (s : BState) (h : s.shouldReconnect = true)
    (h2 : s.reconnectAttempts < s.maxReconnectAttempts) :
    (handleClose s).1.pendingReconnects = s.pendingReconnects + 1 ∧
    (handleClose s).1.reconnectAttempts = s.reconnectAttempts + 1 := by
  simp only [handleClose, stopKeepalive, attemptReconnect]
  split
  · split
    · rename_i hge
      have hge2 : s.reconnectAttempts ≥ s.maxReconnectAttempts := hge
      exact absurd hge2 (by omega)
    · exact ⟨rfl, rfl⟩
  · rename_i hno
    exact absurd h hno

theorem bhandleClose_noSchedule (s : BState) (h : s.shouldReconnect = false) :
    (handleClose s).1.pendingReconnects = s.pendingReconnects ∧
    (handleClose s).1.reconnectAttempts = s.reconnectAttempts := by
  simp only [handleClose, stopKeepalive, attemptReconnect]
  split
  · rename_i hc
    exact absurd hc (by simp [h])
  · exact ⟨rfl, rfl⟩

theorem bres_reject (s : BState) (rid ec : Nat) (h : s.connectRequestId = some rid) :
    (handleMessage s (BMsg.res rid false ec)).1.shouldReconnect = false ∧
    (handleMessage s (BMsg.res rid false ec)).1.connected = false ∧
    (handleMessage s (BMsg.res rid false ec)).1.pingInterval = false ∧
    (handleMessage s (BMsg.res rid false ec)).1.pongTimeout = false ∧
    (handleMessage s (BMsg.res rid false ec)).1.pendingReconnects = s.pendingReconnects ∧
    Action.emitted "error" ∉ (handleMessage s (BMsg.res rid false ec)).2 ∧
    (s.wsPresent = true →
      (handleMessage s (BMsg.res rid false ec)).2 = [Action.wsCloseCalled]) := by
  simp only [handleMessage]
  rw [if_pos h, if_neg (by simp)]
  simp only [disconnect, stopKeepalive]
  split
  · exact ⟨rfl, rfl, rfl, rfl, rfl, by simp, fun _ => rfl⟩
  · rename_i hw
    exact ⟨rfl, rfl, rfl, rfl, rfl, by simp, fun hx => absurd hx (by simpa using hw)⟩

end Browser

namespace Cjs

theorem scheduleReconnect_noop (s : State) (h : s.reconnectTimer = true) :
    scheduleReconnect s = (s, []) := by
  unfold scheduleReconnect
  rw [if_pos h]

theorem scheduleReconnect_arm (s : State) (h : s.reconnectTimer = false) :
    (scheduleReconnect s).1.reconnectAttempts = s.reconnectAttempts + 1 ∧
    (scheduleReconnect s).1.currentReconnectInterval
      = reconnectDelayAt s.options (s.reconnectAttempts + 1) ∧
    (scheduleReconnect s).1.reconnectTimer = true ∧
    (scheduleReconnect s).2 = [Action.emitted "reconnecting"] := by
  unfold scheduleReconnect
  rw [if_neg (by simp [h])]
  exact ⟨rfl, rfl, rfl, rfl⟩

theorem scheduleReconnect_core (s : State) :
    (scheduleReconnect s).1.pendingRequests = s.pendingRequests ∧
    (scheduleReconnect s).1.messageId = s.messageId ∧
    (scheduleReconnect s).1.messageQueue = s.messageQueue ∧
    (scheduleReconnect s).1.wsPresent = s.wsPresent ∧
    (scheduleReconnect s).1.wsReady = s.wsReady ∧
    (scheduleReconnect s).1.shouldReconnect = s.shouldReconnect ∧
    (scheduleReconnect s).1.connected = s.connected ∧
    (scheduleReconnect s).1.heartbeatTimer = s.heartbeatTimer ∧
    (scheduleReconnect s).1.connectionTimer = s.connectionTimer := by
  unfold scheduleReconnect
  split
  · exact ⟨rfl, rfl, rfl, rfl, rfl, rfl, rfl, rfl, rfl⟩
  · exact ⟨rfl, rfl, rfl, rfl, rfl, rfl, rfl, rfl, rfl⟩

theorem handleClose_schedules (s : State) (h : s.shouldReconnect = true)
    (h2 : s.reconnectTimer = false) :
    (handleClose s).1.reconnectAttempts = s.reconnectAttempts + 1 ∧
    (handleClose s).1.reconnectTimer = true ∧
    (handleClose s).1.connected = false ∧
    (handleClose s).1.shouldReconnect = true := by
  simp only [handleClose, stopHeartbeat]
  split
  · have arm := scheduleReconnect_arm
      { s with connected := false, heartbeatTimer := false } h2
    have core := scheduleReconnect_core
      { s with connected := false, heartbeatTimer := false }
    exact ⟨arm.1, arm.2.2.1, core.2.2.2.2.2.2.1, by rw [core.2.2.2.2.2.1]; exact h⟩
  · rename_i hno
    exact absurd h hno

theorem handleError_schedules (s : State) (h : s.connected = false)
    (h2 : s.shouldReconnect = true) (h3 : s.reconnectTimer = false) :
    (handleError s).1.reconnectAttempts = s.reconnectAttempts + 1 ∧
    (handleError s).1.reconnectTimer = true ∧
    (handleError s).1.connected = false ∧
    (handleError s).1.shouldReconnect = true := by
  unfold handleError
  rw [if_pos ⟨h, h2⟩]
  have arm := scheduleReconnect_arm s h3
  have core := scheduleReconnect_core s
  exact ⟨arm.1, arm.2.2.1, by rw [core.2.2.2.2.2.2.1]; exact h,
    by rw [core.2.2.2.2.2.1]; exact h2⟩

theorem handleError_noSchedule (s : State) (h : s.reconnectTimer = true) :
    (handleError s).1 = s := by
  unfold handleError
  split
  · rw [scheduleReconnect_noop s h]
  · rfl

theorem handleClose_timerPending (s : State) (h : s.reconnectTimer = true) :
    (handleClose s).1.reconnectAttempts = s.reconnectAttempts ∧
    (handleClose s).1.reconnectTimer = true := by
  simp only [handleClose, stopHeartbeat]
  split
  · rw [scheduleReconnect_noop { s with connected := false, heartbeatTimer := false } h]
    exact ⟨rfl, h⟩
  · exact ⟨rfl, h⟩

theorem handleOpen_sent (s : State) (hw : s.wsPresent = true)
    (hr : s.wsReady = ReadyState.OPEN) :
    sentRpcPairs (handleOpen s).2 = s.messageQueue.map (fun e => (e.method, e.params)) ∧
    sentRpcIds (handleOpen s).2 = List.range' (s.messageId + 1) s.messageQueue.length ∧
    (handleOpen s).1.messageQueue = [] := by
  have hf := flushGo_sent s.messageQueue
    { s with connected := true, reconnectAttempts := 0,
             currentReconnectInterval := s.options.reconnectInterval,
             connectionTimer := false, messageQueue := [] } rfl hw hr
  obtain ⟨mid, pr, hsh⟩ := handleOpen_shape s
  refine ⟨?_, ?_, ?_⟩
  · show sentRpcPairs ((flushGo s.messageQueue _).2 ++ [Action.emitted "connected"]) = _
    simp only [sentRpcPairs, List.filterMap_append] at hf ⊢
    rw [hf.1]
    simp [sentRpcPairs]
  · show sentRpcIds ((flushGo s.messageQueue _).2 ++ [Action.emitted "connected"]) = _
    simp only [sentRpcIds, List.filterMap_append] at hf ⊢
    rw [hf.2.1]
    simp [sentRpcIds]
  · rw [hsh]

end Cjs

namespace Browser

theorem bstep_close_only (s : BState) (e : BEvent) (hne : e ≠ BEvent.userDisconnect)
    (hmem : Action.wsCloseCalled ∈ (step s e).2)
    (hsr : (step s e).1.shouldReconnect = true) :
    e = BEvent.pongTimeoutFire ∧ s.pongTimeout = true ∧
    s.maxMissedPongs ≤ s.missedPongs + 1 := by
  cases e with
  | userConnect => exact absurd hmem (by simp [step, connect])
  | userDisconnect => exact absurd rfl hne
  | wsClose =>
    exfalso
    simp only [step, handleClose, stopKeepalive, attemptReconnect] at hmem
    split at hmem
    · split at hmem
      · simp at hmem
      · simp at hmem
    · simp at hmem
  | wsError => exact absurd hmem (by simp [step])
  | wsMessage m =>
    exfalso
    cases m with
    | challenge n =>
      simp only [step, handleMessage, sendHandshake] at hmem
      split at hmem
      · simp at hmem
      · simp at hmem
    | res rid ok ec =>
      simp only [step, handleMessage] at hmem hsr
      by_cases hrid : s.connectRequestId = some rid
      · rw [if_pos hrid] at hmem hsr
        by_cases hok : ok = true
        · rw [if_pos hok] at hmem
          simp at hmem
        · rw [if_neg hok] at hsr
          have hd := bdisconnect_core { s with shouldReconnect := false }
          rw [hd.2.2.2.2.1] at hsr
          exact Bool.noConfusion hsr
      · rw [if_neg hrid] at hmem
        simp at hmem
    | pong =>
      simp only [step, handleMessage, handlePong] at hmem
      simp at hmem
    | other p =>
      simp only [step, handleMessage] at hmem
      simp at hmem
  | pingFire =>
    exfalso
    simp only [step, sendPing] at hmem
    split at hmem
    · split at hmem
      · simp at hmem
      · simp at hmem
    · simp at hmem
  | pongTimeoutFire =>
    by_cases hpt : s.pongTimeout = true
    · refine ⟨rfl, hpt, ?_⟩
      revert hmem
      simp only [step, handlePongTimeout]
      rw [if_pos hpt]
      split
      · rename_i hth
        intro _
        exact hth
      · intro hmem2
        simp at hmem2
    · exfalso
      revert hmem
      simp only [step]
      rw [if_neg hpt]
      simp
  | reconnectFire =>
    exfalso
    simp only [step, connect] at hmem
    split at hmem
    · simp at hmem
    · simp at hmem

end Browser

/-! ## Claim theorems -/

/-- Claim C1 counterexample: for the browser connector the claim is false.
Disconnect a connected instance; the transport then delivers its close
notification, whose handler — `shouldReconnect` was left true by
`disconnect()` — schedules a reconnect timer, and that timer fires after
`disconnect()` returned. -/
theorem c1_counterexample_browser_timer_fires_after_disconnect :
    (Browser.run (Browser.disconnect Browser.connectedState).1
      [Browser.BEvent.wsClose, Browser.BEvent.reconnectFire]).2.any
        Action.isTimerFire = true := by
  decide

/-- Claim C1 (amended): the claim holds for the Node connector: from the
state `disconnect()` leaves and under every event sequence not containing
a caller `connect()` (a transport `open` is also excluded: the platform
cannot deliver `open` for a socket that was closed), no timer ever fires
and `isConnected()` stays false.  For the browser connector only part of
the claim holds: `disconnect()` clears the keepalive timers (ping interval
and pong timeout) and forces `isConnected()` false, but it leaves the
do-not-reconnect flag and any pending reconnect timer untouched, so a
reconnect timer scheduled by the close handler can still fire afterwards. -/
theorem c1_disconnect_quiescence :
    (∀ (s : Cjs.State) (evs : List Cjs.Event), (∀ e ∈ evs, Cjs.benign e) →
      (Cjs.run (Cjs.disconnect s).1 evs).2.all (fun a => !a.isTimerFire) = true ∧
      Cjs.isConnected (Cjs.run (Cjs.disconnect s).1 evs).1 = false) ∧
    (∀ s : Browser.BState,
      (Browser.disconnect s).1.pingInterval = false ∧
      (Browser.disconnect s).1.pongTimeout = false ∧
      Browser.isConnected (Browser.disconnect s).1 = false ∧
      (Browser.disconnect s).1.shouldReconnect = s.shouldReconnect ∧
      (Browser.disconnect s).1.pendingReconnects = s.pendingReconnects) := by
  constructor
  · intro s evs hb
    have hq := Cjs.disconnect_quiescent s
    have hr := Cjs.run_quiescent evs (Cjs.disconnect s).1 hq hb
    constructor
    · rw [List.all_eq_true]
      intro a ha
      rw [hr.2 a ha]
      rfl
    · unfold Cjs.isConnected
      rw [hr.1.2.2.2.2]
      rfl
  · intro s
    have hd := Browser.bdisconnect_core s
    exact ⟨hd.1, hd.2.1, hd.2.2.1, hd.2.2.2.2.1, hd.2.2.2.2.2.1⟩

/-- Claim C1 witness: the Node-connector half instantiated on a connected
state with a concrete post-disconnect event sequence covering a close
notification, all three timer kinds, and an error notification. -/
theorem c1_disconnect_quiescence_witness :
    (Cjs.run (Cjs.disconnect Cjs.connectedPendingState).1
      [Cjs.Event.wsClose, Cjs.Event.reconnectFire, Cjs.Event.heartbeatFire,
       Cjs.Event.connectionFire, Cjs.Event.wsError]).2.all
        (fun a => !a.isTimerFire) = true ∧
    Cjs.isConnected (Cjs.run (Cjs.disconnect Cjs.connectedPendingState).1
      [Cjs.Event.wsClose, Cjs.Event.reconnectFire, Cjs.Event.heartbeatFire,
       Cjs.Event.connectionFire, Cjs.Event.wsError]).1 = false :=
  c1_disconnect_quiescence.1 Cjs.connectedPendingState
    [Cjs.Event.wsClose, Cjs.Event.reconnectFire, Cjs.Event.heartbeatFire,
     Cjs.Event.connectionFire, Cjs.Event.wsError] (by decide)

/-- Claim C2 counterexample: disconnecting a connected Node connector that
holds one outstanding pending request removes nothing from the pending map
and runs no completion callback — the request is neither removed nor
rejected with a connection-lost error; the transport-close path behaves the
same way. -/
theorem c2_counterexample_pending_survive_disconnect :
    (Cjs.disconnect Cjs.connectedPendingState).1.pendingRequests = [(1, 7)] ∧
    (Cjs.disconnect Cjs.connectedPendingState).2.all
      (fun a => !a.isCallbackRun) = true ∧
    (Cjs.handleClose Cjs.connectedPendingState).1.pendingRequests = [(1, 7)] := by
  decide

/-- Claim C2 (amended): on disconnection — caller-initiated or transport
close — the Node connector leaves the pending-request map untouched: no
entry is removed and no completion callback is invoked, so pending requests
are never rejected with a connection-lost error (they survive until a
matching response arrives).  The queued-but-unsent part of the claim holds:
the outbound queue is preserved. -/
theorem c2_disconnect_pending_queue :
    ∀ s : Cjs.State,
      (Cjs.disconnect s).1.pendingRequests = s.pendingRequests ∧
      (Cjs.disconnect s).1.messageQueue = s.messageQueue ∧
      (Cjs.disconnect s).2.all (fun a => !a.isCallbackRun) = true ∧
      (Cjs.handleClose s).1.pendingRequests = s.pendingRequests ∧
      (Cjs.handleClose s).1.messageQueue = s.messageQueue ∧
      (Cjs.handleClose s).2.all (fun a => !a.isCallbackRun) = true := by
  intro s
  have hd := Cjs.disconnect_core s
  have hc := Cjs.handleClose_core s
  refine ⟨hd.1, hd.2.2.1, ?_, hc.1, hc.2.2.1, ?_⟩
  · show (Cjs.disconnect s).2.all _ = true
    simp only [Cjs.disconnect, Cjs.stopHeartbeat]
    split <;> rfl
  · show (Cjs.handleClose s).2.all _ = true
    simp only [Cjs.handleClose, Cjs.stopHeartbeat, Cjs.scheduleReconnect]
    split
    · split <;> rfl
    · rfl

/-- Claim C3: scheduling the n-th consecutive reconnect attempt uses delay
min(baseDelay · decay^(n−1), maxDelay) — with base 50 ms, decay 2 and cap
200 ms the delays for attempts 1..4 are 50, 100, 200, 200 — the delay is
monotonically non-decreasing in the attempt number whenever decay ≥ 1, and
a successful open resets the attempt counter to 0 and the current delay to
the base value. -/
theorem c3_reconnect_backoff :
    (∀ s : Cjs.State, s.reconnectTimer = false →
      (Cjs.scheduleReconnect s).1.reconnectAttempts = s.reconnectAttempts + 1 ∧
      (Cjs.scheduleReconnect s).1.currentReconnectInterval
        = Cjs.reconnectDelayAt s.options (s.reconnectAttempts + 1)) ∧
    (List.map (Cjs.reconnectDelayAt Cjs.scenarioOptions) [1, 2, 3, 4]
      = [50, 100, 200, 200]) ∧
    (∀ (o : Cjs.Options) (n : Nat), 1 ≤ o.reconnectDecay →
      Cjs.reconnectDelayAt o n ≤ Cjs.reconnectDelayAt o (n + 1)) ∧
    (∀ s : Cjs.State,
      (Cjs.handleOpen s).1.reconnectAttempts = 0 ∧
      (Cjs.handleOpen s).1.currentReconnectInterval = s.options.reconnectInterval) := by
  refine ⟨?_, by decide, ?_, ?_⟩
  · intro s h
    have arm := Cjs.scheduleReconnect_arm s h
    exact ⟨arm.1, arm.2.1⟩
  · intro o n h
    unfold Cjs.reconnectDelayAt
    exact min_le_min
      (Nat.mul_le_mul_left _ (Nat.pow_le_pow_right h (by omega)))
      (le_refl _)
  · intro s
    obtain ⟨mid, pr, hsh⟩ := Cjs.handleOpen_shape s
    rw [hsh]
    exact ⟨rfl, rfl⟩

/-- Claim C3 witness: the backoff facts instantiated on the scenario
options (base 50, decay 2, cap 200) starting from the constructor state. -/
theorem c3_reconnect_backoff_witness :
    (Cjs.scheduleReconnect (Cjs.init Cjs.scenarioOptions)).1.reconnectAttempts = 1 ∧
    (Cjs.scheduleReconnect (Cjs.init Cjs.scenarioOptions)).1.currentReconnectInterval
      = Cjs.reconnectDelayAt Cjs.scenarioOptions 1 ∧
    Cjs.reconnectDelayAt Cjs.scenarioOptions 2 ≤ Cjs.reconnectDelayAt Cjs.scenarioOptions 3 :=
  ⟨(c3_reconnect_backoff.1 (Cjs.init Cjs.scenarioOptions) rfl).1,
   (c3_reconnect_backoff.1 (Cjs.init Cjs.scenarioOptions) rfl).2,
   c3_reconnect_backoff.2.2.1 Cjs.scenarioOptions 2 (by decide)⟩

/-- Claim C4: a `send` while disconnected appends exactly one entry to the
FIFO queue and sends nothing; any sequence of offline sends appends its
entries in submission order with none dropped; and on the transition to
connected (the open handler running with the socket OPEN) the queue is
flushed so the transport observes exactly the queued (method, params) pairs
in original submission order, leaving the queue empty. -/
theorem c4_offline_queue_fifo :
    (∀ (s : Cjs.State) (m : String) (p : Nat) (cb : Option Nat),
      s.connected = false →
      (Cjs.send s m p cb).1.messageQueue = s.messageQueue ++ [⟨m, p, cb⟩] ∧
      (Cjs.send s m p cb).2.1 = []) ∧
    (∀ (sends : List (String × Nat × Option Nat)) (s : Cjs.State),
      s.connected = false →
      (Cjs.run s (sends.map
          (fun x => Cjs.Event.userSend x.1 x.2.1 x.2.2))).1.messageQueue
        = s.messageQueue
          ++ sends.map (fun x => (⟨x.1, x.2.1, x.2.2⟩ : Cjs.QueueEntry))) ∧
    (∀ s : Cjs.State, s.wsPresent = true → s.wsReady = ReadyState.OPEN →
      sentRpcPairs (Cjs.handleOpen s).2
        = s.messageQueue.map (fun e => (e.method, e.params)) ∧
      (Cjs.handleOpen s).1.messageQueue = []) := by
  have hsend : ∀ (s : Cjs.State) (m : String) (p : Nat) (cb : Option Nat),
      s.connected = false →
      Cjs.send s m p cb
        = ({ s with messageQueue := s.messageQueue ++ [⟨m, p, cb⟩] }, [], false) := by
    intro s m p cb h
    unfold Cjs.send
    rw [if_neg (by simp [h])]
  refine ⟨?_, ?_, ?_⟩
  · intro s m p cb h
    rw [hsend s m p cb h]
    exact ⟨rfl, rfl⟩
  · intro sends
    induction sends with
    | nil => intro s h; simp [Cjs.run]
    | cons x rest ih =>
      intro s h
      have h1 : Cjs.step s (Cjs.Event.userSend x.1 x.2.1 x.2.2)
          = ({ s with messageQueue := s.messageQueue ++ [⟨x.1, x.2.1, x.2.2⟩] }, []) := by
        show ((Cjs.send s x.1 x.2.1 x.2.2).1, (Cjs.send s x.1 x.2.1 x.2.2).2.1) = _
        rw [hsend s x.1 x.2.1 x.2.2 h]
      show (Cjs.run (Cjs.step s (Cjs.Event.userSend x.1 x.2.1 x.2.2)).1
          (rest.map (fun x => Cjs.Event.userSend x.1 x.2.1 x.2.2))).1.messageQueue = _
      rw [h1]
      rw [ih { s with messageQueue := s.messageQueue ++ [⟨x.1, x.2.1, x.2.2⟩] } h]
      simp
  · intro s hw hr
    exact ⟨(Cjs.handleOpen_sent s hw hr).1, (Cjs.handleOpen_sent s hw hr).2.2⟩

/-- Claim C4 witness: one offline send appends its entry, and flushing a
state with two queued messages hands the transport exactly those two in
order and empties the queue. -/
theorem c4_offline_queue_fifo_witness :
    (Cjs.send (Cjs.init Cjs.defaultOptions) "a" 1 none).1.messageQueue
      = (Cjs.init Cjs.defaultOptions).messageQueue ++ [⟨"a", 1, none⟩] ∧
    sentRpcPairs (Cjs.handleOpen Cjs.qOpenState).2
      = Cjs.qOpenState.messageQueue.map (fun e => (e.method, e.params)) ∧
    (Cjs.handleOpen Cjs.qOpenState).1.messageQueue = [] :=
  ⟨(c4_offline_queue_fifo.1 (Cjs.init Cjs.defaultOptions) "a" 1 none (by decide)).1,
   (c4_offline_queue_fifo.2.2 Cjs.qOpenState (by decide) (by decide)).1,
   (c4_offline_queue_fifo.2.2 Cjs.qOpenState (by decide) (by decide)).2⟩

/-- Claim C5: in the browser connector each pong timeout increments
`missedPongs` (default threshold 2); strictly below the threshold nothing
else happens; reaching the threshold — and only then — cancels the
keepalive timers, force-closes the transport immediately and leaves the
reconnect flag intact, so the close handler then schedules the reconnect;
and a forced close that leaves reconnection enabled can only come from a
pong timeout that reached the threshold (caller `disconnect()` aside). -/
theorem c5_pong_timeout_threshold :
    Browser.init.maxMissedPongs = 2 ∧
    (∀ s : Browser.BState, s.pongTimeout = true →
      (Browser.step s Browser.BEvent.pongTimeoutFire).1.missedPongs
        = s.missedPongs + 1) ∧
    (∀ s : Browser.BState, s.pongTimeout = true →
      s.missedPongs + 1 < s.maxMissedPongs →
      (Browser.step s Browser.BEvent.pongTimeoutFire).1
        = { s with pongTimeout := false, missedPongs := s.missedPongs + 1 } ∧
      (Browser.step s Browser.BEvent.pongTimeoutFire).2
        = [Action.timerFired "pongTimeout"]) ∧
    (∀ s : Browser.BState, s.pongTimeout = true →
      s.maxMissedPongs ≤ s.missedPongs + 1 → s.wsPresent = true →
      (Browser.step s Browser.BEvent.pongTimeoutFire).1.pingInterval = false ∧
      (Browser.step s Browser.BEvent.pongTimeoutFire).1.pongTimeout = false ∧
      (Browser.step s Browser.BEvent.pongTimeoutFire).1.wsPresent = false ∧
      (Browser.step s Browser.BEvent.pongTimeoutFire).1.connected = false ∧
      (Browser.step s Browser.BEvent.pongTimeoutFire).1.shouldReconnect
        = s.shouldReconnect ∧
      Action.wsCloseCalled ∈ (Browser.step s Browser.BEvent.pongTimeoutFire).2) ∧
    (∀ s : Browser.BState, s.shouldReconnect = true →
      s.reconnectAttempts < s.maxReconnectAttempts →
      (Browser.step s Browser.BEvent.wsClose).1.pendingReconnects
        = s.pendingReconnects + 1) ∧
    (∀ (s : Browser.BState) (e : Browser.BEvent),
      e ≠ Browser.BEvent.userDisconnect →
      Action.wsCloseCalled ∈ (Browser.step s e).2 →
      (Browser.step s e).1.shouldReconnect = true →
      e = Browser.BEvent.pongTimeoutFire ∧ s.pongTimeout = true ∧
      s.maxMissedPongs ≤ s.missedPongs + 1) := by
  refine ⟨rfl, ?_, ?_, ?_, ?_, ?_⟩
  · intro s h
    have hstep : (Browser.step s Browser.BEvent.pongTimeoutFire).1
        = (Browser.handlePongTimeout { s with pongTimeout := false }).1 := by
      show (if s.pongTimeout = true then _ else (s, [])).1 = _
      rw [if_pos h]
    rw [hstep]
    simp only [Browser.handlePongTimeout]
    split
    · have hd := Browser.bdisconnect_core
        { s with pongTimeout := false, missedPongs := s.missedPongs + 1 }
      rw [hd.2.2.2.2.2.2.1]
    · rfl
  · intro s h hlt
    have hstep : Browser.step s Browser.BEvent.pongTimeoutFire
        = ({ s with pongTimeout := false, missedPongs := s.missedPongs + 1 },
           [Action.timerFired "pongTimeout"]) := by
      simp only [Browser.step, Browser.handlePongTimeout]
      rw [if_pos h,
        if_neg (show ¬(s.missedPongs + 1 ≥ s.maxMissedPongs) by omega)]
    rw [hstep]
    exact ⟨rfl, rfl⟩
  · intro s h hge hw
    have hstep : Browser.step s Browser.BEvent.pongTimeoutFire
        = ({ s with
              pongTimeout := false
              missedPongs := s.missedPongs + 1
              pingInterval := false
              wsPresent := false
              connected := false },
           [Action.timerFired "pongTimeout", Action.wsCloseCalled]) := by
      simp only [Browser.step, Browser.handlePongTimeout, Browser.disconnect,
        Browser.stopKeepalive]
      rw [if_pos h, if_pos (show s.missedPongs + 1 ≥ s.maxMissedPongs from hge),
        if_pos hw]
    rw [hstep]
    exact ⟨rfl, rfl, rfl, rfl, rfl, by simp⟩
  · intro s h1 h2
    exact (Browser.bhandleClose_schedules s h1 h2).1
  · intro s e hne hmem hsr
    exact Browser.bstep_close_only s e hne hmem hsr

/-- Claim C5 witness: on a connected browser state with a probe
outstanding, the first timeout only counts; after a second probe the
timeout reaches the threshold and force-closes the transport while keeping
the reconnect flag, and the following close event schedules the
reconnect. -/
theorem c5_pong_timeout_threshold_witness :
    (Browser.step Browser.probeState Browser.BEvent.pongTimeoutFire).1.missedPongs
      = Browser.probeState.missedPongs + 1 ∧
    (Browser.step Browser.probeState2 Browser.BEvent.pongTimeoutFire).1.wsPresent
      = false ∧
    (Browser.step Browser.probeState2 Browser.BEvent.pongTimeoutFire).1.shouldReconnect
      = Browser.probeState2.shouldReconnect ∧
    Action.wsCloseCalled
      ∈ (Browser.step Browser.probeState2 Browser.BEvent.pongTimeoutFire).2 ∧
    (Browser.step Browser.probeState2 Browser.BEvent.wsClose).1.pendingReconnects
      = Browser.probeState2.pendingReconnects + 1 :=
  ⟨c5_pong_timeout_threshold.2.1 Browser.probeState (by decide),
   (c5_pong_timeout_threshold.2.2.2.1 Browser.probeState2
      (by decide) (by decide) (by decide)).2.2.1,
   (c5_pong_timeout_threshold.2.2.2.1 Browser.probeState2
      (by decide) (by decide) (by decide)).2.2.2.2.1,
   (c5_pong_timeout_threshold.2.2.2.1 Browser.probeState2
      (by decide) (by decide) (by decide)).2.2.2.2.2,
   c5_pong_timeout_threshold.2.2.2.2.1 Browser.probeState2 (by decide) (by decide)⟩

/-- Claim C6 counterexample: a handshake rejection carrying a non-credential
error token (17) is still treated as fatal — `shouldReconnect` is set false
so no reconnect is ever scheduled (contradicting the non-fatal half of the
claim), and zero `error` events are dispatched (contradicting "exactly one
error event" for the fatal half). -/
theorem c6_counterexample_reject_no_error_no_retry :
    (Browser.handleMessage Browser.awaitingAcceptState
      (Browser.BMsg.res 0 false 17)).1.shouldReconnect = false ∧
    Action.emitted "error"
      ∉ (Browser.handleMessage Browser.awaitingAcceptState
          (Browser.BMsg.res 0 false 17)).2 ∧
    (Browser.run (Browser.handleMessage Browser.awaitingAcceptState
        (Browser.BMsg.res 0 false 17)).1
      [Browser.BEvent.wsClose]).1.pendingReconnects = 0 := by
  decide

/-- Claim C6 (amended): every handshake rejection — whatever its cause,
credential or not — is treated as fatal: the connector sets the
do-not-reconnect flag, clears the keepalive timers, closes the transport,
dispatches no error event at all, and neither the rejection nor the
subsequent transport close schedules any reconnect attempt. -/
theorem c6_handshake_reject_always_fatal :
    ∀ (s : Browser.BState) (rid ec : Nat), s.connectRequestId = some rid →
      (Browser.handleMessage s (Browser.BMsg.res rid false ec)).1.shouldReconnect
        = false ∧
      (Browser.handleMessage s (Browser.BMsg.res rid false ec)).1.connected = false ∧
      (Browser.handleMessage s (Browser.BMsg.res rid false ec)).1.pingInterval
        = false ∧
      (Browser.handleMessage s (Browser.BMsg.res rid false ec)).1.pongTimeout
        = false ∧
      (Browser.handleMessage s (Browser.BMsg.res rid false ec)).1.pendingReconnects
        = s.pendingReconnects ∧
      Action.emitted "error"
        ∉ (Browser.handleMessage s (Browser.BMsg.res rid false ec)).2 ∧
      (s.wsPresent = true →
        (Browser.handleMessage s (Browser.BMsg.res rid false ec)).2
          = [Action.wsCloseCalled]) ∧
      (Browser.step (Browser.handleMessage s (Browser.BMsg.res rid false ec)).1
        Browser.BEvent.wsClose).1.pendingReconnects = s.pendingReconnects := by
  intro s rid ec h
  have hr := Browser.bres_reject s rid ec h
  refine ⟨hr.1, hr.2.1, hr.2.2.1, hr.2.2.2.1, hr.2.2.2.2.1, hr.2.2.2.2.2.1,
    hr.2.2.2.2.2.2, ?_⟩
  have hn := Browser.bhandleClose_noSchedule
    (Browser.handleMessage s (Browser.BMsg.res rid false ec)).1 hr.1
  show (Browser.handleClose _).1.pendingReconnects = _
  rw [hn.1, hr.2.2.2.2.1]

/-- Claim C6 witness: the amended rejection behaviour instantiated on the
concrete awaiting-accept state. -/
theorem c6_handshake_reject_always_fatal_witness :
    (Browser.handleMessage Browser.awaitingAcceptState
      (Browser.BMsg.res 0 false 3)).1.shouldReconnect = false ∧
    (Browser.handleMessage Browser.awaitingAcceptState
      (Browser.BMsg.res 0 false 3)).2 = [Action.wsCloseCalled] :=
  ⟨(c6_handshake_reject_always_fatal Browser.awaitingAcceptState 0 3 (by decide)).1,
   (c6_handshake_reject_always_fatal Browser.awaitingAcceptState 0 3
      (by decide)).2.2.2.2.2.2.1 (by decide)⟩

/-- Claim C7 counterexample: a `send` with a callback issued on a
disconnected connector allocates no correlation id (the id counter is
untouched) and registers no pending request — the entry is only queued — so
the id is NOT allocated at enqueue time as claimed. -/
theorem c7_counterexample_no_id_at_enqueue :
    (Cjs.send (Cjs.init Cjs.defaultOptions) "chat.send" 3 (some 9)).1.messageId = 0 ∧
    (Cjs.send (Cjs.init Cjs.defaultOptions) "chat.send" 3 (some 9)).1.pendingRequests
      = [] ∧
    (Cjs.send (Cjs.init Cjs.defaultOptions) "chat.send" 3 (some 9)).1.messageQueue
      = [⟨"chat.send", 3, some 9⟩] := by
  decide

/-- Claim C7 (amended): while disconnected, `send` only queues the entry
with its callback — no correlation id is allocated and no PendingRequest is
registered at enqueue time; the id is allocated and the PendingRequest
registered at FLUSH time, when the entry is actually written: each actual
send allocates the next id `messageId + 1` and registers the callback under
it, and a full flush allocates consecutive, strictly increasing ids in
submission order. -/
theorem c7_correlation_id_at_flush :
    (∀ (s : Cjs.State) (m : String) (p : Nat) (cb : Option Nat),
      s.connected = false →
      (Cjs.send s m p cb).1.messageId = s.messageId ∧
      (Cjs.send s m p cb).1.pendingRequests = s.pendingRequests ∧
      (Cjs.send s m p cb).1.messageQueue = s.messageQueue ++ [⟨m, p, cb⟩] ∧
      (Cjs.send s m p cb).2.2 = false) ∧
    (∀ (s : Cjs.State) (m : String) (p : Nat) (c : Nat),
      s.wsPresent = true → s.wsReady = ReadyState.OPEN →
      (Cjs.sendInternal s m p (some c)).1.messageId = s.messageId + 1 ∧
      (Cjs.sendInternal s m p (some c)).2.1
        = [Action.wsSentRpc (some (s.messageId + 1)) m p] ∧
      Cjs.mapGet (Cjs.sendInternal s m p (some c)).1.pendingRequests
        (s.messageId + 1) = some c) ∧
    (∀ s : Cjs.State, s.connected = true → s.wsPresent = true →
      s.wsReady = ReadyState.OPEN →
      sentRpcIds (Cjs.flushQueue s).2
        = List.range' (s.messageId + 1) s.messageQueue.length) := by
  refine ⟨?_, ?_, ?_⟩
  · intro s m p cb h
    have hq : Cjs.send s m p cb
        = ({ s with messageQueue := s.messageQueue ++ [⟨m, p, cb⟩] }, [], false) := by
      unfold Cjs.send
      rw [if_neg (by simp [h])]
    rw [hq]
    exact ⟨rfl, rfl, rfl, rfl⟩
  · intro s m p c hw hr
    have ho := Cjs.sendInternal_open s m p (some c) hw hr
    refine ⟨ho.2.2.1, ho.1, ?_⟩
    rw [ho.2.2.2.2.2.2.2.1 c rfl]
    exact Cjs.mapGet_mapSet_self _ _ _
  · intro s hc hw hr
    exact (Cjs.flushGo_sent s.messageQueue
      { s with messageQueue := [] } hc hw hr).2.1

/-- Claim C7 witness: the amended allocation discipline on concrete
states — queueing while offline allocates nothing; an actual socket write
allocates id 1 and registers the callback under it. -/
theorem c7_correlation_id_at_flush_witness :
    (Cjs.send (Cjs.init Cjs.defaultOptions) "x" 2 (some 5)).1.messageId
      = (Cjs.init Cjs.defaultOptions).messageId ∧
    (Cjs.sendInternal Cjs.qOpenState "x" 2 (some 5)).1.messageId
      = Cjs.qOpenState.messageId + 1 ∧
    Cjs.mapGet (Cjs.sendInternal Cjs.qOpenState "x" 2 (some 5)).1.pendingRequests
      (Cjs.qOpenState.messageId + 1) = some 5 :=
  ⟨(c7_correlation_id_at_flush.1 (Cjs.init Cjs.defaultOptions) "x" 2 (some 5)
      (by decide)).1,
   (c7_correlation_id_at_flush.2.1 Cjs.qOpenState "x" 2 5 (by decide) (by decide)).1,
   (c7_correlation_id_at_flush.2.1 Cjs.qOpenState "x" 2 5
      (by decide) (by decide)).2.2⟩

/-- Claim C8: a response whose id matches a registered pending request runs
that callback exactly once with the response payload and removes the entry;
a second response with the same id matches nothing — the connector state is
unchanged and no callback runs; and no correlation id is reused while its
pending request is outstanding: every registered id is at most the id
counter, the invariant is preserved by every event, and under it the next
allocated id `messageId + 1` is never already registered. -/
theorem c8_response_correlation :
    (∀ (s : Cjs.State) (i cb payload : Nat),
      Cjs.mapGet s.pendingRequests i = some cb →
      (Cjs.handleMessage s ⟨some i, payload⟩).2
        = [Action.callbackRun cb payload, Action.emitted "message"] ∧
      Cjs.mapGet (Cjs.handleMessage s ⟨some i, payload⟩).1.pendingRequests i
        = none) ∧
    (∀ (s : Cjs.State) (i payload : Nat),
      Cjs.mapGet s.pendingRequests i = none →
      Cjs.handleMessage s ⟨some i, payload⟩ = (s, [Action.emitted "message"])) ∧
    (∀ s : Cjs.State, Cjs.pendingBounded s →
      Cjs.mapGet s.pendingRequests (s.messageId + 1) = none) ∧
    (∀ (s : Cjs.State) (e : Cjs.Event), Cjs.pendingBounded s →
      Cjs.pendingBounded (Cjs.step s e).1) := by
  refine ⟨?_, ?_, ?_, ?_⟩
  · intro s i cb payload h
    unfold Cjs.handleMessage
    simp only [h]
    exact ⟨trivial, Cjs.mapGet_mapDelete_self s.pendingRequests i⟩
  · intro s i payload h
    unfold Cjs.handleMessage
    simp only [h]
  · intro s hb
    apply Cjs.mapGet_eq_none
    intro p hp
    have := hb p hp
    omega
  · intro s e hb
    exact Cjs.step_bounded e hb

/-- Claim C8 witness: the correlation facts instantiated on the connected
state holding pending request (1, callback 7) and a concrete response. -/
theorem c8_response_correlation_witness :
    (Cjs.handleMessage Cjs.connectedPendingState ⟨some 1, 42⟩).2
      = [Action.callbackRun 7 42, Action.emitted "message"] ∧
    Cjs.mapGet (Cjs.handleMessage Cjs.connectedPendingState
      ⟨some 1, 42⟩).1.pendingRequests 1 = none ∧
    Cjs.mapGet Cjs.connectedPendingState.pendingRequests
      (Cjs.connectedPendingState.messageId + 1) = none :=
  ⟨(c8_response_correlation.1 Cjs.connectedPendingState 1 7 42 (by decide)).1,
   (c8_response_correlation.1 Cjs.connectedPendingState 1 7 42 (by decide)).2,
   c8_response_correlation.2.2.1 Cjs.connectedPendingState (by decide)⟩

/-- Claim C9 counterexample: `connect()` is NOT a no-op while a connection
attempt is still in progress: after a first `connect()` the socket is
CONNECTING, and a second `connect()` opens a second transport connection
(a new socket is created), contradicting the no-op-while-connecting half of
the claim. -/
theorem c9_counterexample_connect_while_connecting :
    (Cjs.connect (Cjs.init Cjs.defaultOptions)).1.wsReady = ReadyState.CONNECTING ∧
    (Cjs.connect (Cjs.connect (Cjs.init Cjs.defaultOptions)).1).2
      = [Action.wsCreated] := by
  decide

/-- Claim C9 (amended): `connect()` is a no-op only when the current socket
is already OPEN (connected); while a socket is still CONNECTING it opens a
second transport connection, replacing the first.  Every `connect()` call
that proceeds sets the do-not-reconnect flag clear; the early-return case
leaves the flag untouched, but in every reachable state the flag is already
clear there, because a socket object is only present while reconnection is
enabled — an invariant that holds initially and is preserved by every
event. -/
theorem c9_connect_idempotent_only_when_open :
    (∀ s : Cjs.State, s.wsPresent = true → s.wsReady = ReadyState.OPEN →
      Cjs.connect s = (s, [])) ∧
    (∀ s : Cjs.State, ¬(s.wsPresent = true ∧ s.wsReady = ReadyState.OPEN) →
      (Cjs.connect s).1.shouldReconnect = true ∧
      (Cjs.connect s).2 = [Action.wsCreated]) ∧
    (∀ s : Cjs.State, Cjs.wsReconnectInv s →
      (Cjs.connect s).1.shouldReconnect = true) ∧
    (∀ (s : Cjs.State) (e : Cjs.Event), Cjs.wsReconnectInv s →
      Cjs.wsReconnectInv (Cjs.step s e).1) ∧
    (∀ o : Cjs.Options, Cjs.wsReconnectInv (Cjs.init o)) := by
  refine ⟨?_, ?_, ?_, ?_, ?_⟩
  · intro s hw hr
    unfold Cjs.connect
    rw [if_pos ⟨hw, hr⟩]
  · intro s h
    unfold Cjs.connect
    rw [if_neg h]
    exact ⟨rfl, rfl⟩
  · intro s hv
    unfold Cjs.connect
    split
    · rename_i hc
      exact hv hc.1
    · rfl
  · intro s e hv
    exact Cjs.step_wsInv e hv
  · intro o h
    exact Bool.noConfusion h

/-- Claim C9 witness: `connect()` on an OPEN connected state is exactly a
no-op, while on the constructor state it creates a socket and clears the
do-not-reconnect flag. -/
theorem c9_connect_idempotent_only_when_open_witness :
    Cjs.connect Cjs.connectedPendingState = (Cjs.connectedPendingState, []) ∧
    (Cjs.connect (Cjs.init Cjs.defaultOptions)).1.shouldReconnect = true ∧
    (Cjs.connect (Cjs.init Cjs.defaultOptions)).2 = [Action.wsCreated] :=
  ⟨c9_connect_idempotent_only_when_open.1 Cjs.connectedPendingState
      (by decide) (by decide),
   (c9_connect_idempotent_only_when_open.2.1 (Cjs.init Cjs.defaultOptions)
      (by decide)).1,
   (c9_connect_idempotent_only_when_open.2.1 (Cjs.init Cjs.defaultOptions)
      (by decide)).2⟩

/-- Claim C10: at most one reconnect timer is pending per instance —
scheduling is an exact no-op while the timer is pending, otherwise it arms
the timer and increments the attempt counter by one — so overlapping close
and error notifications for the same failure (in either order) increment
the attempt counter exactly once and leave a single armed reconnect
timer. -/
theorem c10_single_reconnect_timer :
    (∀ s : Cjs.State, s.reconnectTimer = true →
      Cjs.scheduleReconnect s = (s, [])) ∧
    (∀ s : Cjs.State, s.reconnectTimer = false →
      (Cjs.scheduleReconnect s).1.reconnectTimer = true ∧
      (Cjs.scheduleReconnect s).1.reconnectAttempts = s.reconnectAttempts + 1) ∧
    (∀ s : Cjs.State, s.shouldReconnect = true → s.reconnectTimer = false →
      (Cjs.step (Cjs.step s Cjs.Event.wsClose).1 Cjs.Event.wsError).1.reconnectAttempts
        = s.reconnectAttempts + 1 ∧
      (Cjs.step (Cjs.step s Cjs.Event.wsClose).1 Cjs.Event.wsError).1.reconnectTimer
        = true) ∧
    (∀ s : Cjs.State, s.shouldReconnect = true → s.reconnectTimer = false →
      s.connected = false →
      (Cjs.step (Cjs.step s Cjs.Event.wsError).1 Cjs.Event.wsClose).1.reconnectAttempts
        = s.reconnectAttempts + 1 ∧
      (Cjs.step (Cjs.step s Cjs.Event.wsError).1 Cjs.Event.wsClose).1.reconnectTimer
        = true) := by
  have key : ∀ t : Cjs.State, t.shouldReconnect = true → t.reconnectTimer = false →
      (Cjs.step (Cjs.handleClose t).1 Cjs.Event.wsError).1.reconnectAttempts
        = t.reconnectAttempts + 1 ∧
      (Cjs.step (Cjs.handleClose t).1 Cjs.Event.wsError).1.reconnectTimer = true := by
    intro t ht1 ht2
    have hs := Cjs.handleClose_schedules t ht1 ht2
    show (Cjs.handleError (Cjs.handleClose t).1).1.reconnectAttempts = _ ∧
      (Cjs.handleError (Cjs.handleClose t).1).1.reconnectTimer = true
    rw [Cjs.handleError_noSchedule (Cjs.handleClose t).1 hs.2.1]
    exact ⟨hs.1, hs.2.1⟩
  have key2 : ∀ t : Cjs.State, t.reconnectTimer = true →
      (Cjs.step t Cjs.Event.wsClose).1.reconnectAttempts = t.reconnectAttempts ∧
      (Cjs.step t Cjs.Event.wsClose).1.reconnectTimer = true := by
    intro t ht
    show ((Cjs.handleClose _).1.reconnectAttempts = _) ∧
      ((Cjs.handleClose _).1.reconnectTimer = true)
    split
    · exact Cjs.handleClose_timerPending _ ht
    · exact Cjs.handleClose_timerPending _ ht
  refine ⟨?_, ?_, ?_, ?_⟩
  · intro s h
    exact Cjs.scheduleReconnect_noop s h
  · intro s h
    have arm := Cjs.scheduleReconnect_arm s h
    exact ⟨arm.2.2.1, arm.1⟩
  · intro s h1 h2
    show (Cjs.step (Cjs.handleClose _).1 Cjs.Event.wsError).1.reconnectAttempts = _ ∧
      (Cjs.step (Cjs.handleClose _).1 Cjs.Event.wsError).1.reconnectTimer = true
    split
    · exact key _ h1 h2
    · exact key _ h1 h2
  · intro s h1 h2 h3
    have he := Cjs.handleError_schedules s h3 h1 h2
    have hk := key2 (Cjs.handleError s).1 he.2.1
    show (Cjs.step (Cjs.handleError s).1 Cjs.Event.wsClose).1.reconnectAttempts = _ ∧
      (Cjs.step (Cjs.handleError s).1 Cjs.Event.wsClose).1.reconnectTimer = true
    exact ⟨by rw [hk.1, he.1], hk.2⟩

/-- Claim C10 witness: on the connecting state (reconnection allowed, no
timer pending), a close followed by an error — and an error followed by a
close on the constructor state — each increment the attempt counter exactly
once. -/
theorem c10_single_reconnect_timer_witness :
    (Cjs.step (Cjs.step Cjs.connectingState Cjs.Event.wsClose).1
      Cjs.Event.wsError).1.reconnectAttempts
      = Cjs.connectingState.reconnectAttempts + 1 ∧
    (Cjs.step (Cjs.step (Cjs.init Cjs.defaultOptions) Cjs.Event.wsError).1
      Cjs.Event.wsClose).1.reconnectAttempts
      = (Cjs.init Cjs.defaultOptions).reconnectAttempts + 1 :=
  ⟨(c10_single_reconnect_timer.2.2.1 Cjs.connectingState
      (by decide) (by decide)).1,
   (c10_single_reconnect_timer.2.2.2 (Cjs.init Cjs.defaultOptions)
      (by decide) (by decide) (by decide)).1⟩

end Butter
